import Mathlib

/-!
Verification of the tinyterm serial console (src/tinyterm/tinyterm.py).

The embedding models:
* the escape state machine of SerialConsole.interpret together with the
  per-byte trap logic of the stdin branch of SerialConsole.__call__
  (bytes are natural numbers 0..255, batches are lists of bytes);
* the relay loop of SerialConsole.__call__ as a fold over readiness
  events (port data, stdin data, SIGINT delivery), tracking the bytes
  written to the port, the bytes echoed to the display, the escape
  pending flag, the stop flag, and the number of help printouts;
* the duplicate-invocation guard of register_cleanup;
* the parity validation step of main.
-/

namespace TinyTerm

/-- Byte encoding of an ASCII string literal (src uses Python bytes). -/
def strBytes (s : String) : List Nat := s.toList.map Char.toNat

/-- The escape command byte, self.ctrl_a, the byte 0x01. -/
def ctrl_a : Nat := 0x01

/-- The bytes trapped as quit commands in SerialConsole.interpret:
q, Q, k, K, backslash. -/
def quitBytes : List Nat := [0x71, 0x51, 0x6B, 0x4B, 0x5C]

/-- The byte sequence built by the r/R branch of SerialConsole.interpret:
"\x01\x0B\ntrue\n" followed by "export TERM=<t> && resize && reset\n",
where <t> is the value of the TERM environment variable (as bytes) or
"vt100" when unset. -/
def resetSequence (term : Option (List Nat)) : List Nat :=
  strBytes ("\x01\x0B\ntrue\n") ++
    (strBytes ("export TERM=") ++ term.getD (strBytes ("vt100")) ++
      strBytes (" && resize && reset\n"))

/-- Result of interpreting one trapped byte: the bytes appended to the
output buffer, whether self.stop was set, and whether the help menu was
printed. -/
structure InterpretResult where
  out : List Nat
  setStop : Bool
  help : Bool
deriving DecidableEq

/-- SerialConsole.interpret: dispatch on a trapped control byte. -/
def interpret (term : Option (List Nat)) (char : Nat) : InterpretResult :=
  if char ∈ quitBytes then ⟨[], true, false⟩
  else if char = 0x72 ∨ char = 0x52 then ⟨resetSequence term, false, false⟩
  else if char = 0x3F then ⟨[], false, true⟩
  else ⟨[char], false, false⟩

/-- State carried through the per-byte loop of SerialConsole.__call__:
trap_next, self.stop, outbuf, and the number of help printouts so far. -/
structure BatchState where
  trap_next : Bool
  stop : Bool
  outbuf : List Nat
  helpCount : Nat
deriving DecidableEq

/-- One iteration of the for-loop over chars in SerialConsole.__call__
(lines 121-128): a pending trap consumes the byte via interpret, an
escape byte arms the trap, anything else is buffered literally. -/
def stepChar (term : Option (List Nat)) (s : BatchState) (char : Nat) :
    BatchState :=
  if s.trap_next then
    let r := interpret term char
    ⟨false, s.stop || r.setStop, s.outbuf ++ r.out,
      s.helpCount + (if r.help then 1 else 0)⟩
  else if char = ctrl_a then
    { s with trap_next := true }
  else
    { s with outbuf := s.outbuf ++ [char] }

/-- The whole for-loop over one stdin batch. -/
def processChars (term : Option (List Nat)) (s : BatchState)
    (data : List Nat) : BatchState :=
  data.foldl (stepChar term) s

/-- Observable session state of the relay loop: escape pending flag,
stop flag, help printouts, bytes written to the port, bytes written to
the display. -/
structure Session where
  trap_next : Bool
  stop : Bool
  helpCount : Nat
  written : List Nat
  displayed : List Nat
deriving DecidableEq

/-- A readiness event serviced by the relay loop: the port has data, the
stdin side has a batch of data, or a SIGINT was delivered (the installed
handler writes the byte 0x03 to the port). -/
inductive Event where
  | fromPort (data : List Nat)
  | fromStdin (data : List Nat)
  | sigint
deriving DecidableEq

/-- Session state when the loop starts (lines 103-105). -/
def initSession : Session := ⟨false, false, 0, [], []⟩

/-- One serviced event of the relay loop. Once self.stop is true the
loop has exited, so nothing further is processed. Port data goes to the
display verbatim; a stdin batch runs through the escape machine, and the
joined outbuf is written to the port unless stop became true, in which
case the break at line 131 skips the write. -/
def handleEvent (term : Option (List Nat)) (s : Session) (e : Event) :
    Session :=
  if s.stop then s
  else
    match e with
    | .fromPort data => { s with displayed := s.displayed ++ data }
    | .sigint => { s with written := s.written ++ [0x03] }
    | .fromStdin data =>
        let r := processChars term ⟨s.trap_next, s.stop, [], s.helpCount⟩ data
        if r.stop then
          { s with trap_next := r.trap_next, stop := true,
                   helpCount := r.helpCount }
        else
          { s with trap_next := r.trap_next, helpCount := r.helpCount,
                   written := s.written ++ r.outbuf }

/-- The relay loop over a sequence of readiness events. -/
def run (term : Option (List Nat)) (events : List Event) : Session :=
  events.foldl (handleEvent term) initSession

/- ### Claim C1 -/

lemma processChars_no_escape (term : Option (List Nat)) (st : BatchState)
    (data : List Nat) (hTrap : st.trap_next = false)
    (hNoEsc : ∀ c ∈ data, c ≠ ctrl_a) :
    processChars term st data = { st with outbuf := st.outbuf ++ data } := by
  induction data generalizing st with
  | nil => simp [processChars]
  | cons c rest ih =>
      have hc : c ≠ ctrl_a := hNoEsc c (List.mem_cons_self c rest)
      have hrest : ∀ b ∈ rest, b ≠ ctrl_a := fun b hb =>
        hNoEsc b (List.mem_cons_of_mem c hb)
      show processChars term (stepChar term st c) rest = _
      rw [stepChar, if_neg (by simp [hTrap]), if_neg hc]
      rw [ih { st with outbuf := st.outbuf ++ [c] } hTrap hrest]
      simp

/-- Claim C1: a stdin batch containing no escape byte, processed with
escape pending false and the stop flag clear, is written to the port
exactly as received: every byte literal, none added or dropped, order
preserved. -/
theorem C1_literal_batch_passthrough (term : Option (List Nat))
    (s : Session) (data : List Nat)
    (hTrap : s.trap_next = false) (hStop : s.stop = false)
    (hNoEsc : ∀ c ∈ data, c ≠ ctrl_a) :
    (handleEvent term s (.fromStdin data)).written = s.written ++ data := by
  rw [handleEvent, if_neg (by simp [hStop])]
  simp only
  rw [processChars_no_escape term _ data hTrap hNoEsc]
  simp [hStop]

/-- Witness for C1: the batch "hello\n" passes through unchanged. -/
theorem C1_witness :
    (handleEvent none initSession
        (.fromStdin (strBytes ("hello\n")))).written =
      [] ++ strBytes ("hello\n") :=
  C1_literal_batch_passthrough none initSession (strBytes ("hello\n"))
    rfl rfl (by decide)

/- ### Claim C2 -/

/-- Claim C2: if the stop flag becomes true while processing a stdin
batch, nothing from that batch reaches the port: the break at line 131
comes before the port.write at line 133, so even literal bytes already
buffered in outbuf are discarded. -/
theorem C2_stop_discards_batch (term : Option (List Nat)) (s : Session)
    (data : List Nat) (hStop : s.stop = false)
    (hBecomes :
      (processChars term ⟨s.trap_next, s.stop, [], s.helpCount⟩ data).stop =
        true) :
    (handleEvent term s (.fromStdin data)).written = s.written := by
  rw [handleEvent, if_neg (by simp [hStop])]
  simp only [hBecomes, if_true]

/-- Witness for C2: the batch ab followed by 0x01 and q sets stop, so the
already buffered literal bytes a and b are never written. -/
theorem C2_witness :
    (handleEvent none initSession
        (.fromStdin (strBytes ("ab") ++ [0x01, 0x71]))).written =
      initSession.written :=
  C2_stop_discards_batch none initSession (strBytes ("ab") ++ [0x01, 0x71])
    rfl (by decide)

/- ### Claim C3 -/

/-- Claim C3: every byte in the quit set q, Q, k, K, backslash consumed
with escape pending sets the stop flag and contributes no output; the
two-byte input 0x01 q leaves stop true with zero bytes written. -/
theorem C3_quit_commands (term : Option (List Nat)) (char : Nat)
    (stop₀ : Bool) (buf : List Nat) (hcnt : Nat)
    (h : char ∈ quitBytes) :
    interpret term char = ⟨[], true, false⟩ ∧
    stepChar term ⟨true, stop₀, buf, hcnt⟩ char = ⟨false, true, buf, hcnt⟩ ∧
    (run term [.fromStdin [ctrl_a, 0x71]]).stop = true ∧
    (run term [.fromStdin [ctrl_a, 0x71]]).written = [] := by
  have hi : interpret term char = ⟨[], true, false⟩ := by
    rw [interpret, if_pos h]
  refine ⟨hi, ?_, ?_, ?_⟩
  · rw [stepChar, if_pos rfl, hi]
    simp
  · simp [run, handleEvent, initSession, processChars, stepChar, interpret,
      quitBytes, ctrl_a]
  · simp [run, handleEvent, initSession, processChars, stepChar, interpret,
      quitBytes, ctrl_a]

/-- Witness for C3: instantiated at the quit byte q. -/
theorem C3_witness :
    interpret none 0x71 = ⟨[], true, false⟩ ∧
    stepChar none ⟨true, false, [], 0⟩ 0x71 = ⟨false, true, [], 0⟩ ∧
    (run none [.fromStdin [ctrl_a, 0x71]]).stop = true ∧
    (run none [.fromStdin [ctrl_a, 0x71]]).written = [] :=
  C3_quit_commands none 0x71 false [] 0 (by decide)

/- ### Claim C5 -/

/-- Claim C5: the input 0x01 0x01, starting with escape pending false,
emits the literal byte 0x01 exactly once, leaves escape pending false
and the stop flag unchanged; end to end the port receives the single
byte 0x01. -/
theorem C5_double_escape (term : Option (List Nat)) (stop₀ : Bool) :
    processChars term ⟨false, stop₀, [], 0⟩ [ctrl_a, ctrl_a] =
      ⟨false, stop₀, [ctrl_a], 0⟩ ∧
    (run term [.fromStdin [ctrl_a, ctrl_a]]).written = [ctrl_a] ∧
    (run term [.fromStdin [ctrl_a, ctrl_a]]).stop = false := by
  refine ⟨?_, ?_, ?_⟩
  · simp [processChars, stepChar, interpret, quitBytes, ctrl_a]
  · simp [run, handleEvent, initSession, processChars, stepChar, interpret,
      quitBytes, ctrl_a]
  · simp [run, handleEvent, initSession, processChars, stepChar, interpret,
      quitBytes, ctrl_a]

/- ### Claim C4 -/

/-- Claim C4: a trapped r or R buffers exactly the escape byte 0x01,
the fixed control byte 0x0B, then "\ntrue\nexport TERM=vt100 && resize
&& reset\n" when TERM is unset; when TERM is set, its value replaces
vt100 inside the export TERM= substring, and the sequence still ends in
a newline. -/
theorem C4_reset_command (term : Option (List Nat)) (t : List Nat)
    (char : Nat) (h : char = 0x72 ∨ char = 0x52) :
    interpret term char = ⟨resetSequence term, false, false⟩ ∧
    resetSequence none =
      0x01 :: 0x0B ::
        strBytes ("\ntrue\nexport TERM=vt100 && resize && reset\n") ∧
    resetSequence (some t) =
      0x01 :: 0x0B ::
        (strBytes ("\ntrue\nexport TERM=") ++ t ++
          strBytes (" && resize && reset\n")) := by
  refine ⟨?_, ?_, ?_⟩
  · have hq : char ∉ quitBytes := by
      rcases h with h | h <;> simp [h, quitBytes]
    rw [interpret, if_neg hq, if_pos h]
  · rfl
  · show ([1, 11, 10, 116, 114, 117, 101, 10] : List Nat) ++
      ([101, 120, 112, 111, 114, 116, 32, 84, 69, 82, 77, 61] ++ t ++
        strBytes (" && resize && reset\n")) =
      1 :: 11 ::
        ([10, 116, 114, 117, 101, 10, 101, 120, 112, 111, 114, 116, 32, 84,
          69, 82, 77, 61] ++ t ++ strBytes (" && resize && reset\n"))
    simp

/-- Witness for C4: instantiated at the byte r with TERM unset and at
the one-byte TERM value "x". -/
theorem C4_witness :
    interpret none 0x72 = ⟨resetSequence none, false, false⟩ ∧
    resetSequence none =
      0x01 :: 0x0B ::
        strBytes ("\ntrue\nexport TERM=vt100 && resize && reset\n") ∧
    resetSequence (some [0x78]) =
      0x01 :: 0x0B ::
        (strBytes ("\ntrue\nexport TERM=") ++ [0x78] ++
          strBytes (" && resize && reset\n")) :=
  C4_reset_command none [0x78] 0x72 (Or.inl rfl)

/- ### Claim C6 -/

lemma processChars_append (term : Option (List Nat)) (s : BatchState)
    (d₁ d₂ : List Nat) :
    processChars term s (d₁ ++ d₂) =
      processChars term (processChars term s d₁) d₂ := by
  simp [processChars, List.foldl_append]

/-- Claim C6: when the escape byte 0x01 ends a stdin batch (armed as a
prefix, i.e. no trap was pending when it was consumed, and the batch did
not stop the loop), trap_next survives the batch boundary: it is still
true after intervening port-to-display traffic, and the first byte of
the next batch is dispatched to interpret as a trapped command rather
than matched literally or as a new prefix. -/
theorem C6_escape_pending_persists (term : Option (List Nat))
    (data₁ portData : List Nat) (c : Nat) (data₂ : List Nat)
    (hc : Nat) (buf : List Nat)
    (hTrap : (processChars term ⟨false, false, [], 0⟩ data₁).trap_next =
      false)
    (hStop : (processChars term ⟨false, false, [], 0⟩ data₁).stop = false) :
    (handleEvent term initSession
      (.fromStdin (data₁ ++ [ctrl_a]))).trap_next = true ∧
    (handleEvent term initSession
      (.fromStdin (data₁ ++ [ctrl_a]))).stop = false ∧
    (handleEvent term
      (handleEvent term initSession (.fromStdin (data₁ ++ [ctrl_a])))
      (.fromPort portData)).trap_next = true ∧
    (handleEvent term
      (handleEvent term initSession (.fromStdin (data₁ ++ [ctrl_a])))
      (.fromPort portData)).stop = false ∧
    processChars term ⟨true, false, buf, hc⟩ (c :: data₂) =
      processChars term
        ⟨false, (interpret term c).setStop,
          buf ++ (interpret term c).out,
          hc + (if (interpret term c).help then 1 else 0)⟩ data₂ := by
  have hbatch :
      processChars term ⟨false, false, [], 0⟩ (data₁ ++ [ctrl_a]) =
        { processChars term ⟨false, false, [], 0⟩ data₁ with
            trap_next := true } := by
    rw [processChars_append]
    show stepChar term (processChars term ⟨false, false, [], 0⟩ data₁)
        ctrl_a = _
    rw [stepChar, if_neg (by simp [hTrap]), if_pos rfl]
  refine ⟨?_, ?_, ?_, ?_, ?_⟩
  · simp [handleEvent, initSession, hbatch, hStop]
  · simp [handleEvent, initSession, hbatch, hStop]
  · simp [handleEvent, initSession, hbatch, hStop]
  · simp [handleEvent, initSession, hbatch, hStop]
  · show processChars term
        (stepChar term ⟨true, false, buf, hc⟩ c) data₂ = _
    rw [stepChar, if_pos rfl]
    simp

/-- Witness for C6: the batch "ab" ++ 0x01 followed by port traffic
"READY\n" and a next batch starting with the byte q. -/
theorem C6_witness :
    (handleEvent none initSession
      (.fromStdin (strBytes ("ab") ++ [ctrl_a]))).trap_next = true ∧
    (handleEvent none initSession
      (.fromStdin (strBytes ("ab") ++ [ctrl_a]))).stop = false ∧
    (handleEvent none
      (handleEvent none initSession
        (.fromStdin (strBytes ("ab") ++ [ctrl_a])))
      (.fromPort (strBytes ("READY\n")))).trap_next = true ∧
    (handleEvent none
      (handleEvent none initSession
        (.fromStdin (strBytes ("ab") ++ [ctrl_a])))
      (.fromPort (strBytes ("READY\n")))).stop = false ∧
    processChars none ⟨true, false, [], 0⟩ [0x71] =
      processChars none
        ⟨false, (interpret none 0x71).setStop,
          [] ++ (interpret none 0x71).out,
          0 + (if (interpret none 0x71).help then 1 else 0)⟩ [] :=
  C6_escape_pending_persists none (strBytes ("ab")) (strBytes ("READY\n"))
    0x71 [] 0 [] (by decide) (by decide)

/- ### Claim C8 -/

/-- State of one cleanup closure made by register_cleanup: the
cleanup.called guard and the number of times the wrapped function has
actually run. -/
structure CleanupState where
  called : Bool
  runs : Nat
deriving DecidableEq

/-- The cleanup wrapper (lines 25-28): runs the wrapped function only
when the guard is still clear, then sets the guard. -/
def cleanup (s : CleanupState) : CleanupState :=
  if s.called then s else { called := true, runs := s.runs + 1 }

/-- The two registered entry points into the same cleanup closure:
atexit (line 31) and the chained sys.excepthook (lines 34-38). -/
inductive HookEvent where
  | atexitHook
  | exceptHook
deriving DecidableEq

/-- Either hook invokes the shared cleanup closure; the exception hook
then delegates to the old hook, which does not touch this state. -/
def invokeHook (s : CleanupState) : HookEvent → CleanupState
  | .atexitHook => cleanup s
  | .exceptHook => cleanup s

lemma invokeHook_of_called (events : List HookEvent) (s : CleanupState)
    (h : s.called = true) : events.foldl invokeHook s = s := by
  induction events with
  | nil => rfl
  | cons e rest ih =>
      have : invokeHook s e = s := by
        cases e <;> simp [invokeHook, cleanup, h]
      rw [List.foldl_cons, this, ih]

/-- Claim C8: however the registered cleanup is reached, via the exit
hook, the exception hook, or any nonempty mix of both, the underlying
restore/close function runs exactly once. -/
theorem C8_cleanup_idempotent (events : List HookEvent)
    (h : events ≠ []) :
    (events.foldl invokeHook ⟨false, 0⟩).runs = 1 := by
  cases events with
  | nil => exact absurd rfl h
  | cons e rest =>
      have h1 : invokeHook ⟨false, 0⟩ e = ⟨true, 1⟩ := by
        cases e <;> simp [invokeHook, cleanup]
      rw [List.foldl_cons, h1, invokeHook_of_called rest ⟨true, 1⟩ rfl]

/-- Witness for C8: a simulated double exit, the exit hook followed by
the exception hook, runs the wrapped function once. -/
theorem C8_witness :
    (([HookEvent.atexitHook, HookEvent.exceptHook]).foldl invokeHook
      ⟨false, 0⟩).runs = 1 :=
  C8_cleanup_idempotent [HookEvent.atexitHook, HookEvent.exceptHook]
    (by simp)

/- ### Claim C9 -/

/-- Claim C9: while the relay loop is live, a delivered SIGINT only
appends the single interrupt byte 0x03 to the bytes written to the
port; it leaves the stop flag false, the escape pending flag, the help
count and the display output unchanged, so it never terminates the
loop by itself. -/
theorem C9_sigint_frame (term : Option (List Nat)) (s : Session)
    (h : s.stop = false) :
    (handleEvent term s .sigint).written = s.written ++ [0x03] ∧
    (handleEvent term s .sigint).stop = false ∧
    (handleEvent term s .sigint).trap_next = s.trap_next ∧
    (handleEvent term s .sigint).helpCount = s.helpCount ∧
    (handleEvent term s .sigint).displayed = s.displayed := by
  rw [handleEvent, if_neg (by simp [h])]
  simp [h]

/-- Witness for C9: a SIGINT delivered in the initial session state. -/
theorem C9_witness :
    (handleEvent none initSession .sigint).written =
      initSession.written ++ [0x03] ∧
    (handleEvent none initSession .sigint).stop = false ∧
    (handleEvent none initSession .sigint).trap_next =
      initSession.trap_next ∧
    (handleEvent none initSession .sigint).helpCount =
      initSession.helpCount ∧
    (handleEvent none initSession .sigint).displayed =
      initSession.displayed :=
  C9_sigint_frame none initSession rfl

/- ### Claim C10 -/

lemma stepChar_stop_invariant (term : Option (List Nat)) (s : BatchState)
    (c : Nat) :
    stepChar term { s with stop := true } c =
      { stepChar term s c with stop := true } := by
  rw [stepChar, stepChar]
  by_cases h : s.trap_next
  · simp [h]
  · by_cases hc : c = ctrl_a <;> simp [h, hc]

/-- Claim C10: the stop flag does not gate the escape machine: a batch
processed from a stopped state classifies every remaining byte exactly
as it would unstopped (same outbuf, same help printing, same trap
state), so a help command after a quit in the same batch still prints;
concretely the batch 0x01 q 0x01 question mark x prints help once,
buffers the literal x, and still writes nothing to the port. -/
theorem C10_processing_continues_after_stop (term : Option (List Nat))
    (s : BatchState) (data : List Nat) :
    processChars term { s with stop := true } data =
      { processChars term s data with stop := true } ∧
    processChars term ⟨false, false, [], 0⟩
        [ctrl_a, 0x71, ctrl_a, 0x3F, 0x78] =
      ⟨false, true, [0x78], 1⟩ ∧
    (run term [.fromStdin [ctrl_a, 0x71, ctrl_a, 0x3F, 0x78]]).helpCount =
      1 ∧
    (run term [.fromStdin [ctrl_a, 0x71, ctrl_a, 0x3F, 0x78]]).written =
      [] ∧
    (run term [.fromStdin [ctrl_a, 0x71, ctrl_a, 0x3F, 0x78]]).stop =
      true := by
  refine ⟨?_, ?_, ?_, ?_, ?_⟩
  · induction data generalizing s with
    | nil => rfl
    | cons c rest ih =>
        show processChars term
            (stepChar term { s with stop := true } c) rest = _
        rw [stepChar_stop_invariant, ih]
        rfl
  · simp [processChars, stepChar, interpret, quitBytes, ctrl_a]
  · simp [run, handleEvent, initSession, processChars, stepChar, interpret,
      quitBytes, ctrl_a]
  · simp [run, handleEvent, initSession, processChars, stepChar, interpret,
      quitBytes, ctrl_a]
  · simp [run, handleEvent, initSession, processChars, stepChar, interpret,
      quitBytes, ctrl_a]

/- ### Claim C7 -/

/-- Whitespace as recognized by Python str.strip for ASCII input. -/
def pySpace (c : Char) : Bool :=
  c = ' ' || c = '\t' || c = '\n' || c = '\r' || c = '\x0B' || c = '\x0C'

/-- Python str.strip: drop whitespace from both ends. -/
def pyStrip (s : List Char) : List Char :=
  ((s.dropWhile pySpace).reverse.dropWhile pySpace).reverse

/-- Python str.upper restricted to ASCII input. -/
def pyUpper (s : List Char) : List Char := s.map Char.toUpper

/-- How the parity validation in main can leave the process: the diagnostic
sys.stderr.write plus sys.exit(1) path, an uncaught exception
propagating out of main, or falling through with the normalized parity
letter. -/
inductive MainOutcome where
  | diagExit (msg : List Char)
  | unhandled (exc : String)
  | proceed (parity : Char)
deriving DecidableEq

/-- True exactly on the diagnostic-exit path of main. -/
def isDiagExit : MainOutcome → Bool
  | .diagExit _ => true
  | _ => false

/-- Lines 196-200 of main: args.parity.strip().upper()[0] followed by
the membership test against E, O, N. Indexing an empty string with [0]
raises IndexError. -/
def parityStage (arg : List Char) : MainOutcome :=
  match pyUpper (pyStrip arg) with
  | [] => .unhandled ("IndexError")
  | c :: _ =>
      if c = 'E' ∨ c = 'O' ∨ c = 'N' then .proceed c
      else
        .diagExit (String.toList ("Error: unknown parity setting [") ++
          [c] ++ String.toList ("].\n"))

/-- Counterexample to C7 as stated: the all-whitespace parity argument
"  " normalizes to the empty string, which is not one of N, E, O, yet
main does not reach its diagnostic write: line 196 raises an uncaught
IndexError instead. -/
theorem C7_counterexample :
    pyUpper (pyStrip (String.toList ("  "))) = [] ∧
    parityStage (String.toList ("  ")) = .unhandled ("IndexError") ∧
    isDiagExit (parityStage (String.toList ("  "))) = false := by
  decide

/-- Claim C7 as amended: when the stripped, upper-cased argument is
nonempty and its first letter is not E, O or N, main writes the
unknown-parity diagnostic to stderr and exits with status 1 before any
resource is acquired; an empty or all-whitespace argument instead
raises an uncaught IndexError at the indexing step. -/
theorem C7_parity_validation (arg argEmpty : List Char) (c : Char)
    (rest : List Char)
    (hNorm : pyUpper (pyStrip arg) = c :: rest)
    (hBad : ¬(c = 'E' ∨ c = 'O' ∨ c = 'N'))
    (hEmpty : pyStrip argEmpty = []) :
    parityStage arg =
      .diagExit (String.toList ("Error: unknown parity setting [") ++
        [c] ++ String.toList ("].\n")) ∧
    parityStage argEmpty = .unhandled ("IndexError") := by
  constructor
  · rw [parityStage, hNorm]
    simp only [hBad, if_false]
  · rw [parityStage, pyUpper, hEmpty]
    rfl

/-- Witness for C7 as amended: the argument " z " normalizes to Z and
draws the diagnostic; the empty argument raises IndexError. -/
theorem C7_witness :
    parityStage (String.toList (" z ")) =
      .diagExit (String.toList ("Error: unknown parity setting [") ++
        ['Z'] ++ String.toList ("].\n")) ∧
    parityStage [] = .unhandled ("IndexError") :=
  C7_parity_validation (String.toList (" z ")) [] 'Z' []
    (by decide) (by decide) (by decide)

end TinyTerm
